import Mathlib

/-!
Verification of the ms-tts MCP text-to-speech server (src/ms-tts.mjs).

This file gives a shallow embedding of the server's pure core:
the voice catalog (`VOICE_CONFIG`, `getVoiceForLanguage`), the synthesis
gateway (`synthesizeSpeech`, with the external Azure SDK call, the clock
and the file system modelled as an explicit environment `Env`), the tool
registry (`listToolsResult`) and the request dispatcher
(`handleCallTool`).  JavaScript strings become Lean `String`s, JSON
argument values become `JSValue` (so that truthiness and `typeof` checks
can be stated faithfully), fallible code returns `Except String`, and
JavaScript floating-point arithmetic on metrics is modelled over `ℚ`
(`toFixed(2)` display formatting is abstracted; the guarded numeric
values are what the theorems are about).
-/

namespace MsTts

/-- A JSON argument value, as received in a `tools/call` request.  Only
the shapes the dispatcher can distinguish are modelled: strings, numbers,
booleans and null. -/
inductive JSValue where
  | str : String → JSValue
  | num : Int → JSValue
  | bool : Bool → JSValue
  | null : JSValue
deriving DecidableEq, Repr

/-- JavaScript truthiness of a `JSValue`. -/
def JSValue.truthy : JSValue → Bool
  | .str s => s ≠ ""
  | .num n => n ≠ 0
  | .bool b => b
  | .null => false

/-- JavaScript truthiness of an optional string (an `undefined`-or-string
value such as an environment variable): truthy iff present and non-empty. -/
def strTruthy : Option String → Bool
  | none => false
  | some s => s ≠ ""

/-- JavaScript `a || b` on `string | undefined` values. -/
def jsOrOpt (a : Option String) (b : Option String) : Option String :=
  match a with
  | some s => if s = "" then b else some s
  | none => b

/-- JavaScript `a || d` on a `string | undefined` value with a string
default: returns `a` when truthy, else `d`. -/
def jsOrD (a : Option String) (d : String) : String :=
  match a with
  | some s => if s = "" then d else s
  | none => d

/-- One entry of `VOICE_CONFIG`: a default voice and a list of
alternative voices for a language (ms-tts.mjs lines 40-71). -/
structure LangConfig where
  default : String
  alternatives : List String
deriving DecidableEq, Repr

/-- English voices. -/
def enUS : LangConfig :=
  { default := "en-US-RyanMultilingualNeural",
    alternatives := ["en-US-JennyMultilingualNeural", "en-US-AndrewMultilingualNeural"] }

/-- Finnish voices (default is an en-US multilingual voice, absent from
the alternatives list). -/
def fiFI : LangConfig :=
  { default := "en-US-RyanMultilingualNeural",
    alternatives := ["en-US-JennyMultilingualNeural", "fi-FI-SelmaNeural",
                     "fi-FI-NooraNeural", "fi-FI-HarriNeural"] }

/-- Spanish voices. -/
def esES : LangConfig :=
  { default := "es-ES-AlvaroNeural", alternatives := ["es-ES-ElviraNeural"] }

/-- German voices. -/
def deDE : LangConfig :=
  { default := "de-DE-ConradNeural", alternatives := ["de-DE-KatjaNeural"] }

/-- French voices. -/
def frFR : LangConfig :=
  { default := "fr-FR-DeniseNeural", alternatives := ["fr-FR-HenriNeural"] }

/-- Swedish voices. -/
def svSE : LangConfig :=
  { default := "sv-SE-MattiasNeural", alternatives := ["sv-SE-SofieNeural"] }

/-- The voice configuration mapping, `VOICE_CONFIG` in ms-tts.mjs. -/
def VOICE_CONFIG : List (String × LangConfig) :=
  [("en-US", enUS), ("fi-FI", fiFI), ("es-ES", esES),
   ("de-DE", deDE), ("fr-FR", frFR), ("sv-SE", svSE)]

/-- Property lookup `VOICE_CONFIG[language]` on the configuration object. -/
def lookupVoiceConfig (language : String) : Option LangConfig :=
  (VOICE_CONFIG.find? (fun p => p.1 == language)).map (fun p => p.2)

/-- The function `getVoiceForLanguage(language, requestedVoice)`
(ms-tts.mjs lines 76-91): with no registered profile, fall back to the English default;
with a truthy requested voice that is the profile default or one of its
alternatives, return it; otherwise return the profile default. -/
def getVoiceForLanguage (language : String) (requestedVoice : Option String) : String :=
  match lookupVoiceConfig language, requestedVoice with
  | none, _ => enUS.default
  | some langConfig, none => langConfig.default
  | some langConfig, some rv =>
    if rv ≠ "" then
      if rv = langConfig.default ∨ rv ∈ langConfig.alternatives then rv
      else langConfig.default
    else langConfig.default

/-! ## String helpers for filename generation -/

/-- Replace the first occurrence of character `a` by `b`, as JavaScript
`s.replace('-', '_')` does (non-global `replace` rewrites only the first
match). -/
def replaceFirstChar : List Char → Char → Char → List Char
  | [], _, _ => []
  | c :: rest, a, b => if c = a then b :: rest else c :: replaceFirstChar rest a b

/-- The call `language.replace('-', '_')` (ms-tts.mjs line 128): the first hyphen
becomes an underscore. -/
def jsReplaceFirstHyphen (s : String) : String :=
  String.mk (replaceFirstChar s.data '-' '_')

/-- ASCII alphanumeric test, the complement of the character class in
the regex `/[^a-zA-Z0-9]/`. -/
def isAlnumAscii (c : Char) : Bool :=
  ('a' ≤ c && c ≤ 'z') || ('A' ≤ c && c ≤ 'Z') || ('0' ≤ c && c ≤ '9')

/-- The call `selectedVoice.replace(/[^a-zA-Z0-9]/g, '-')` (ms-tts.mjs line 129):
every non-alphanumeric character becomes a hyphen. -/
def jsReplaceNonAlnum (s : String) : String :=
  String.mk (s.data.map (fun c => if isAlnumAscii c then c else '-'))

/-- The call `timestamp.replace(/[:.]/g, '-')` (ms-tts.mjs line 127): every colon
and period becomes a hyphen. -/
def jsReplaceColonsDots (s : String) : String :=
  String.mk (s.data.map (fun c => if c = ':' ∨ c = '.' then '-' else c))

/-- Modelled from the spec's wording for the naming convention
("the language code with its hyphen separator replaced by an
underscore"): replace EVERY hyphen by an underscore.  Compared against
the source's first-occurrence `jsReplaceFirstHyphen` in the filename
theorem; the two agree on the supported language codes, which contain a
single hyphen. -/
def specUnderscoreLang (s : String) : String :=
  String.mk (s.data.map (fun c => if c = '-' then '_' else c))

/-- Number of maximal whitespace runs in a character list (`inRun` is
true when the previous character was whitespace). -/
def countWsRuns : List Char → Bool → Nat
  | [], _ => 0
  | c :: rest, inRun =>
    if c.isWhitespace then (if inRun then 0 else 1) + countWsRuns rest true
    else countWsRuns rest false

/-- The expression `sentence.split(/\s+/).length` (ms-tts.mjs line 138): splitting on k
separator matches yields k+1 parts, and each maximal whitespace run is
one separator match. -/
def jsWordCount (s : String) : Nat :=
  countWsRuns s.data false + 1

/-! ## The synthesis gateway -/

/-- The fields of the Azure SDK result object inspected by the success
callback: `errorDetails`, `audioData` (modelled by its `byteLength`,
`none` when absent) and `audioDuration` (in 100-nanosecond ticks). -/
structure SpeechResult where
  errorDetails : Option String
  audioData : Option Nat
  audioDuration : Nat
deriving DecidableEq, Repr

/-- The behaviour of the one external `speakTextAsync` call: either the
success callback fires with a result object, or the error callback fires
with an error value (rendered as a string). -/
inductive ExternalOutcome where
  | completed : SpeechResult → ExternalOutcome
  | errored : String → ExternalOutcome
deriving DecidableEq, Repr

/-- The ambient state a single `synthesizeSpeech` call depends on:
resolved configuration, the wall clock (`timestamp` is
`new Date().toISOString()`, `elapsedMs` is `Date.now() - startTime` at
the callback), the external capability's behaviour, and whether
`writeFileSync` throws (`some msg` models a thrown error with that
message). -/
structure Env where
  azureSpeechKey : Option String
  azureSpeechRegion : String
  audioOutputDir : String
  timestamp : String
  elapsedMs : Nat
  external : ExternalOutcome
  fileWriteError : Option String
deriving DecidableEq, Repr

/-- Resolution `AZURE_SPEECH_KEY || AZURE_SPEECH_KEY_FREE` (ms-tts.mjs line 30). -/
def resolveAzureSpeechKey (key keyFree : Option String) : Option String :=
  jsOrOpt key keyFree

/-- Resolution `AZURE_SPEECH_REGION || AZURE_SPEECH_REGION_FREE ||
'westeurope'` (ms-tts.mjs line 31). -/
def resolveAzureSpeechRegion (region regionFree : Option String) : String :=
  jsOrD (jsOrOpt region regionFree) "westeurope"

/-- The rejection message when credentials are missing (ms-tts.mjs line 114). -/
def credentialsErrorMsg : String :=
  "Azure Speech Service credentials not configured. Please set AZURE_SPEECH_KEY and AZURE_SPEECH_REGION environment variables."

/-- The rejection message for an absent or zero-length audio payload
(ms-tts.mjs line 162). -/
def emptyAudioMsg : String :=
  "Speech synthesis produced no audio data"

/-- The metrics object of a successful synthesis (ms-tts.mjs lines
180-186).  `charactersPerSecond` and `wordsPerMinute` hold the numeric
values before the `toFixed(2)` display formatting, over `ℚ`. -/
structure Metrics where
  synthesisTime : Nat
  audioDuration : ℚ
  wordCount : Nat
  charactersPerSecond : ℚ
  wordsPerMinute : ℚ
deriving DecidableEq, Repr

/-- The resolved value of a successful `synthesizeSpeech` promise
(ms-tts.mjs lines 173-187, minus the constant `success: true` tag, which
is the `Except.ok` constructor here). -/
structure SynthesisResult where
  audioFile : String
  filename : String
  voice : String
  language : String
  sentence : String
  metrics : Metrics
deriving DecidableEq, Repr

/-- The function `synthesizeSpeech(sentence, language, voice)`
(ms-tts.mjs lines 110-207).  A rejected promise is `Except.error` carrying the rejection
message; a resolved promise is `Except.ok` carrying the result object. -/
def synthesizeSpeech (env : Env) (sentence language : String) (voice : Option String) :
    Except String SynthesisResult :=
  if strTruthy env.azureSpeechKey = false ∨ env.azureSpeechRegion = "" then
    Except.error credentialsErrorMsg
  else
    let selectedVoice := getVoiceForLanguage language voice
    let timestamp := jsReplaceColonsDots env.timestamp
    let languageCode := jsReplaceFirstHyphen language
    let voiceName := jsReplaceNonAlnum selectedVoice
    let filename := "mcp-tts-" ++ languageCode ++ "-" ++ voiceName ++ "-" ++ timestamp ++ ".wav"
    let outputPath := env.audioOutputDir ++ "/" ++ filename
    let wordCount := jsWordCount sentence
    match env.external with
    | ExternalOutcome.errored e => Except.error ("Speech synthesis error: " ++ e)
    | ExternalOutcome.completed result =>
      if strTruthy result.errorDetails = true then
        Except.error ("Speech synthesis failed: " ++ result.errorDetails.getD "")
      else if result.audioData.getD 0 = 0 then
        Except.error emptyAudioMsg
      else
        match env.fileWriteError with
        | some fileError => Except.error ("Failed to save audio file: " ++ fileError)
        | none =>
          let duration := env.elapsedMs
          let audioDuration : ℚ :=
            if result.audioDuration ≠ 0 then (result.audioDuration : ℚ) / 10000 else 0
          let audioSeconds : ℚ := audioDuration / 1000
          Except.ok
            { audioFile := outputPath
              filename := filename
              voice := selectedVoice
              language := language
              sentence := sentence
              metrics :=
                { synthesisTime := duration
                  audioDuration := audioDuration
                  wordCount := wordCount
                  charactersPerSecond :=
                    if duration > 0 then (sentence.length : ℚ) / ((duration : ℚ) / 1000) else 0
                  wordsPerMinute :=
                    if audioSeconds > 0 then ((wordCount : ℚ) / audioSeconds) * 60 else 0 } }

/-! ## The tool registry -/

/-- The JSON-schema fragment attached to one property of the tool's
`inputSchema` (ms-tts.mjs lines 230-253); only the validation-relevant
fields are modelled (descriptions, examples and the advisory `default`
are documentation). -/
structure PropertySchema where
  type : String
  minLength : Option Nat
  maxLength : Option Nat
  enum : Option (List String)
deriving DecidableEq, Repr

/-- A tool's `inputSchema` object: the property map and the `required`
list. -/
structure InputSchema where
  properties : List (String × PropertySchema)
  required : List String
deriving DecidableEq, Repr

/-- One entry of the `tools` array returned by the `ListToolsRequestSchema`
handler. -/
structure ToolDecl where
  name : String
  description : String
  inputSchema : InputSchema
deriving DecidableEq, Repr

/-- The single registered tool (ms-tts.mjs lines 224-257). -/
def synthesizeSpeechTool : ToolDecl :=
  { name := "synthesize_speech"
    description := "Convert text to speech using Microsoft Azure Speech Services. Supports multiple languages and voices."
    inputSchema :=
      { properties :=
          [("sentence",
            { type := "string", minLength := some 1, maxLength := some 1000, enum := none }),
           ("language",
            { type := "string", minLength := none, maxLength := none,
              enum := some ["en-US", "fi-FI", "es-ES", "de-DE", "fr-FR", "sv-SE"] }),
           ("voice",
            { type := "string", minLength := none, maxLength := none, enum := none })]
        required := ["sentence", "language"] } }

/-- The `tools` array returned by every `tools/list` request
(ms-tts.mjs lines 221-260): a constant singleton. -/
def listToolsResult : List ToolDecl :=
  [synthesizeSpeechTool]

/-- Schema lookup for a property name within a tool declaration. -/
def propSchema (t : ToolDecl) (p : String) : Option PropertySchema :=
  (t.inputSchema.properties.find? (fun q => q.1 == p)).map (fun q => q.2)

/-! ## The request dispatcher -/

/-- The arguments object of a `tools/call` request, projected onto the
three property names the handler destructures.  `voice` is kept as an
optional string (it is passed through untouched to voice resolution, and
only its string identity is ever compared). -/
structure CallArgs where
  sentence : Option JSValue
  language : Option JSValue
  voice : Option String
deriving DecidableEq, Repr

/-- A non-error `tools/call` response: a single text content block. -/
inductive ToolResponse where
  | content : String → ToolResponse
deriving DecidableEq, Repr

/-- The supported language allow-list of the handler (ms-tts.mjs line 282). -/
def supportedLanguages : List String :=
  ["en-US", "fi-FI", "es-ES", "de-DE", "fr-FR", "sv-SE"]

/-- The thrown message `Unknown tool: ...` naming the offending tool
(ms-tts.mjs line 267). -/
def unknownToolMsg (name : String) : String :=
  "Unknown tool: " ++ name

/-- The thrown message for an absent, falsy or non-string `sentence`
argument (ms-tts.mjs line 274). -/
def invalidSentenceMsg : String :=
  "Invalid or missing \"sentence\" parameter"

/-- The thrown message for an absent, falsy or non-string `language`
argument (ms-tts.mjs line 278). -/
def invalidLanguageMsg : String :=
  "Invalid or missing \"language\" parameter"

/-- The thrown message for a language outside the allow-list
(ms-tts.mjs line 284). -/
def unsupportedLanguageMsg (language : String) : String :=
  "Unsupported language: " ++ language ++ ". Supported languages: " ++
    String.intercalate ", " supportedLanguages

/-- The validation `!x || typeof x !== 'string'` applied to a required
string argument: yields the string exactly when the argument is present,
a string, and truthy (non-empty); `none` signals that the handler throws. -/
def validStringParam : Option JSValue → Option String
  | some (JSValue.str s) => if s = "" then none else some s
  | _ => none

/-- The success-response text (ms-tts.mjs lines 304-322), with numeric
rendering abstracted by `toString`. -/
def successText (r : SynthesisResult) : String :=
  "Speech synthesis completed successfully!\n\n**Audio Details:**\n- File: " ++
    r.filename ++ "\n- Path: " ++ r.audioFile ++ "\n- Voice: " ++ r.voice ++
    "\n- Language: " ++ r.language ++ "\n\n**Performance Metrics:**\n- Synthesis Time: " ++
    toString r.metrics.synthesisTime ++ "ms\n- Audio Duration: " ++
    toString r.metrics.audioDuration ++ "ms\n- Word Count: " ++
    toString r.metrics.wordCount ++ "\n- Characters/Second: " ++
    toString r.metrics.charactersPerSecond ++ "\n- Words/Minute: " ++
    toString r.metrics.wordsPerMinute ++ "\n\n**Original Text:**\n\"" ++
    r.sentence ++ "\"\n\nThe audio file has been saved and is ready for playback."

/-- The failure-response text (ms-tts.mjs lines 332-338): the error
message plus constant troubleshooting guidance, delivered as normal
content. -/
def failureText (msg : String) : String :=
  "Speech synthesis failed: " ++ msg ++
    "\n\n**Troubleshooting Tips:**\n- Check that Azure Speech Service credentials are properly configured\n- Verify the language code is supported: en-US, fi-FI, es-ES, de-DE, fr-FR, sv-SE\n- Ensure the sentence is not empty and under 1000 characters\n- Check that the voice name (if specified) is valid for the selected language"

/-- The `CallToolRequestSchema` handler (ms-tts.mjs lines 263-343).
`Except.error` is a thrown error (a protocol-level request failure);
`Except.ok` is a normal protocol response.  The `try`/`catch` around the
`synthesizeSpeech` call maps every rejection to a normal response whose
text is `failureText`. -/
def handleCallTool (env : Env) (name : String) (args : CallArgs) :
    Except String ToolResponse :=
  if name ≠ "synthesize_speech" then
    Except.error (unknownToolMsg name)
  else
    match validStringParam args.sentence with
    | none => Except.error invalidSentenceMsg
    | some sentence =>
      match validStringParam args.language with
      | none => Except.error invalidLanguageMsg
      | some language =>
        if language ∉ supportedLanguages then
          Except.error (unsupportedLanguageMsg language)
        else
          match synthesizeSpeech env sentence language args.voice with
          | Except.ok result => Except.ok (ToolResponse.content (successText result))
          | Except.error e => Except.ok (ToolResponse.content (failureText e))

/-! ## Concrete sample data for witnesses -/

/-- A fully working environment: credentials configured, the external
call completes with a non-empty audio payload, the file write succeeds.
Elapsed time and reported audio duration are zero, exercising both
division-by-zero guards. -/
def zeroEnv : Env :=
  { azureSpeechKey := some "test-key", azureSpeechRegion := "westeurope",
    audioOutputDir := "./audio/mcp-generated", timestamp := "2025-08-17T16:30:45.123Z",
    elapsedMs := 0,
    external := ExternalOutcome.completed
      { errorDetails := none, audioData := some 48000, audioDuration := 0 },
    fileWriteError := none }

/-- A copy of `zeroEnv` with the credentials unset (neither `AZURE_SPEECH_KEY` nor
`AZURE_SPEECH_KEY_FREE` provides a truthy value). -/
def noKeyEnv : Env :=
  { zeroEnv with azureSpeechKey := resolveAzureSpeechKey none none }

/-- A copy of `zeroEnv` with an external call that completes successfully but with
a zero-byte audio payload. -/
def emptyAudioEnv : Env :=
  { zeroEnv with
      external := ExternalOutcome.completed
        { errorDetails := none, audioData := some 0, audioDuration := 0 } }

/-- A placeholder result, used only to totalise `forceOk`. -/
def dummyResult : SynthesisResult :=
  { audioFile := "", filename := "", voice := "", language := "", sentence := "",
    metrics := { synthesisTime := 0, audioDuration := 0, wordCount := 0,
                 charactersPerSecond := 0, wordsPerMinute := 0 } }

/-- Extract the result of a successful synthesis outcome. -/
def forceOk (x : Except String SynthesisResult) (d : SynthesisResult) : SynthesisResult :=
  match x with
  | Except.ok r => r
  | Except.error _ => d

/-- The result of the sample run `synthesizeSpeech zeroEnv "Hello world"
"en-US" none` (which succeeds). -/
def sampleResult : SynthesisResult :=
  forceOk (synthesizeSpeech zeroEnv "Hello world" "en-US" none) dummyResult

/-- Well-formed sample arguments: `"Hello world"` in `en-US`, no voice. -/
def sampleArgs : CallArgs :=
  { sentence := some (JSValue.str "Hello world"),
    language := some (JSValue.str "en-US"), voice := none }

/-- Sample arguments with the sentence property entirely absent. -/
def missingSentenceArgs : CallArgs :=
  { sentence := none, language := some (JSValue.str "en-US"), voice := none }

/-- Sample arguments with an empty-string sentence. -/
def emptySentenceArgs : CallArgs :=
  { sentence := some (JSValue.str ""), language := some (JSValue.str "en-US"),
    voice := none }

/-- Sample arguments with an unsupported language code. -/
def unsupportedArgs : CallArgs :=
  { sentence := some (JSValue.str "Test sentence"),
    language := some (JSValue.str "xx-XX"), voice := none }

/-- A 1001-character sentence, one character over the advertised
`maxLength` bound. -/
def longSentence : String := String.mk (List.replicate 1001 'a')

/-- Sample arguments carrying the 1001-character sentence. -/
def longArgs : CallArgs :=
  { sentence := some (JSValue.str longSentence),
    language := some (JSValue.str "en-US"), voice := none }

/-! ## Dispatcher branch lemmas -/

/-- An unrecognised tool name is thrown as `Unknown tool: ...`. -/
theorem handleCallTool_unknown (env : Env) (name : String) (args : CallArgs)
    (h : name ≠ "synthesize_speech") :
    handleCallTool env name args = Except.error (unknownToolMsg name) := by
  simp [handleCallTool, h]

/-- A sentence argument failing `!sentence || typeof sentence !== 'string'`
is thrown as the invalid-sentence error. -/
theorem handleCallTool_invalidSentence (env : Env) (args : CallArgs)
    (h : validStringParam args.sentence = none) :
    handleCallTool env "synthesize_speech" args = Except.error invalidSentenceMsg := by
  simp [handleCallTool, h]

/-- A language argument failing `!language || typeof language !== 'string'`
is thrown as the invalid-language error. -/
theorem handleCallTool_invalidLanguage (env : Env) (args : CallArgs) (s : String)
    (hs : validStringParam args.sentence = some s)
    (h : validStringParam args.language = none) :
    handleCallTool env "synthesize_speech" args = Except.error invalidLanguageMsg := by
  simp [handleCallTool, hs, h]

/-- A valid-string language outside the allow-list is thrown as the
unsupported-language error. -/
theorem handleCallTool_unsupported (env : Env) (args : CallArgs) (s l : String)
    (hs : validStringParam args.sentence = some s)
    (hl : validStringParam args.language = some l)
    (h : l ∉ supportedLanguages) :
    handleCallTool env "synthesize_speech" args =
      Except.error (unsupportedLanguageMsg l) := by
  simp [handleCallTool, hs, hl, h]

/-- With all validation passed, the handler's response is determined by
the `synthesizeSpeech` outcome: success text on `ok`, failure text on a
caught rejection, in both cases a normal (`Except.ok`) response. -/
theorem handleCallTool_valid (env : Env) (args : CallArgs) (s l : String)
    (hs : validStringParam args.sentence = some s)
    (hl : validStringParam args.language = some l)
    (hsup : l ∈ supportedLanguages) :
    handleCallTool env "synthesize_speech" args =
      match synthesizeSpeech env s l args.voice with
      | Except.ok result => Except.ok (ToolResponse.content (successText result))
      | Except.error e => Except.ok (ToolResponse.content (failureText e)) := by
  simp [handleCallTool, hs, hl, hsup]

/-! ## Gateway branch lemmas -/

/-- With a falsy resolved key, `synthesizeSpeech` rejects with the
configuration message, whatever the rest of the environment holds. -/
theorem synthesizeSpeech_noKey (env : Env) (s l : String) (v : Option String)
    (h : strTruthy env.azureSpeechKey = false) :
    synthesizeSpeech env s l v = Except.error credentialsErrorMsg := by
  simp [synthesizeSpeech, h]

/-- The resolved region `resolveAzureSpeechRegion` is never falsy: the `|| 'westeurope'`
fallback guarantees a non-empty region string. -/
theorem resolveAzureSpeechRegion_ne_empty (region regionFree : Option String) :
    resolveAzureSpeechRegion region regionFree ≠ "" := by
  unfold resolveAzureSpeechRegion jsOrD jsOrOpt
  cases region with
  | none =>
    cases regionFree with
    | none => simp
    | some s => by_cases hs : s = "" <;> simp [hs]
  | some s =>
    by_cases hs : s = ""
    · cases regionFree with
      | none => simp [hs]
      | some t => by_cases ht : t = "" <;> simp [hs, ht]
    · simp [hs]

/-- The sample zero-metrics run succeeds with `sampleResult`. -/
theorem sampleRun_ok :
    synthesizeSpeech zeroEnv "Hello world" "en-US" none = Except.ok sampleResult := by
  have hOk : (synthesizeSpeech zeroEnv "Hello world" "en-US" none).isOk = true := rfl
  unfold sampleResult forceOk
  cases h : synthesizeSpeech zeroEnv "Hello world" "en-US" none with
  | ok r => rfl
  | error e => rw [h] at hOk; simp [Except.isOk, Except.toBool] at hOk

/-! ## Voice-catalog lemmas -/

/-- Every registered profile has a non-empty default voice, and the
empty string is never a registered alternative. -/
theorem voiceConfig_no_empty :
    ∀ q ∈ VOICE_CONFIG, ¬("" = q.2.default ∨ "" ∈ q.2.alternatives) := by
  decide

/-- A successful profile lookup never yields a profile with an empty
default or an empty-string alternative. -/
theorem lookup_no_empty (L : String) (cfg : LangConfig)
    (h : lookupVoiceConfig L = some cfg) :
    ¬("" = cfg.default ∨ "" ∈ cfg.alternatives) := by
  unfold lookupVoiceConfig at h
  obtain ⟨p, hf, rfl⟩ := Option.map_eq_some'.mp h
  exact voiceConfig_no_empty p (List.mem_of_find?_eq_some hf)

/-- C2: `resolveVoice` (`getVoiceForLanguage`) returns the requested
voice V exactly when V is the profile's default or one of its
alternatives, else the profile default; for an unregistered language it
returns the en-US default for every request; and the profile default is
honoured even when absent from the alternatives, as for fi-FI; it is a
total function (no error path exists). -/
theorem resolveVoice_policy :
    (∀ L cfg V, lookupVoiceConfig L = some cfg →
      getVoiceForLanguage L (some V) =
        if V = cfg.default ∨ V ∈ cfg.alternatives then V else cfg.default)
    ∧ (∀ L V, lookupVoiceConfig L = none → getVoiceForLanguage L V = enUS.default)
    ∧ (∀ L cfg, lookupVoiceConfig L = some cfg →
        getVoiceForLanguage L (some cfg.default) = cfg.default)
    ∧ getVoiceForLanguage "fi-FI" (some fiFI.default) = fiFI.default
    ∧ fiFI.default ∉ fiFI.alternatives := by
  have part1 : ∀ L cfg V, lookupVoiceConfig L = some cfg →
      getVoiceForLanguage L (some V) =
        if V = cfg.default ∨ V ∈ cfg.alternatives then V else cfg.default := by
    intro L cfg V h
    unfold getVoiceForLanguage
    rw [h]
    show (if V ≠ "" then
        (if V = cfg.default ∨ V ∈ cfg.alternatives then V else cfg.default)
      else cfg.default) = _
    by_cases hV : V = ""
    · subst hV
      rw [if_neg (by simp), if_neg (lookup_no_empty L cfg h)]
    · rw [if_pos hV]
  refine ⟨part1, ?_, ?_, ?_, by decide⟩
  · intro L V h
    unfold getVoiceForLanguage
    rw [h]
  · intro L cfg h
    rw [part1 L cfg cfg.default h, if_pos (Or.inl rfl)]
  · rw [part1 "fi-FI" fiFI fiFI.default rfl, if_pos (Or.inl rfl)]

/-- C2 witness: resolving the Finnish alternative voice
`fi-FI-SelmaNeural` for `fi-FI` via the policy theorem at a concrete
input. -/
theorem resolveVoice_policy_witness :
    getVoiceForLanguage "fi-FI" (some "fi-FI-SelmaNeural") =
      (if "fi-FI-SelmaNeural" = fiFI.default ∨ "fi-FI-SelmaNeural" ∈ fiFI.alternatives
       then "fi-FI-SelmaNeural" else fiFI.default) :=
  resolveVoice_policy.1 "fi-FI" fiFI "fi-FI-SelmaNeural" rfl

/-- C1: the dispatcher raises exactly three kinds of protocol-level
errors — unknown tool, invalid/missing required parameter (sentence or
language), unsupported language — and once validation has passed no
error at all escapes: any `synthesizeSpeech` rejection is delivered as a
normal `Except.ok` response whose text is the failure message plus the
troubleshooting guidance. -/
theorem dispatcher_error_boundary (env : Env) (name : String) (args : CallArgs) :
    (name ≠ "synthesize_speech" →
      handleCallTool env name args = Except.error (unknownToolMsg name))
    ∧ (validStringParam args.sentence = none →
      handleCallTool env "synthesize_speech" args = Except.error invalidSentenceMsg)
    ∧ (∀ s, validStringParam args.sentence = some s →
        validStringParam args.language = none →
        handleCallTool env "synthesize_speech" args = Except.error invalidLanguageMsg)
    ∧ (∀ s l, validStringParam args.sentence = some s →
        validStringParam args.language = some l → l ∉ supportedLanguages →
        handleCallTool env "synthesize_speech" args =
          Except.error (unsupportedLanguageMsg l))
    ∧ (∀ s l, validStringParam args.sentence = some s →
        validStringParam args.language = some l → l ∈ supportedLanguages →
        ∀ e, handleCallTool env "synthesize_speech" args ≠ Except.error e)
    ∧ (∀ s l msg, validStringParam args.sentence = some s →
        validStringParam args.language = some l → l ∈ supportedLanguages →
        synthesizeSpeech env s l args.voice = Except.error msg →
        handleCallTool env "synthesize_speech" args =
          Except.ok (ToolResponse.content (failureText msg))) := by
  refine ⟨handleCallTool_unknown env name args,
          handleCallTool_invalidSentence env args,
          fun s hs hl => handleCallTool_invalidLanguage env args s hs hl,
          fun s l hs hl hns => handleCallTool_unsupported env args s l hs hl hns,
          fun s l hs hl hsup e => ?_,
          fun s l msg hs hl hsup hz => ?_⟩
  · rw [handleCallTool_valid env args s l hs hl hsup]
    cases hz : synthesizeSpeech env s l args.voice <;> simp
  · rw [handleCallTool_valid env args s l hs hl hsup, hz]

/-- C1 witness: the invalid-sentence conjunct applied to the sample
arguments with an absent sentence. -/
theorem dispatcher_error_boundary_witness :
    handleCallTool zeroEnv "synthesize_speech" missingSentenceArgs =
      Except.error invalidSentenceMsg :=
  (dispatcher_error_boundary zeroEnv "synthesize_speech" missingSentenceArgs).2.1 rfl

/-- C8: a valid-string language outside the six supported codes is
thrown as a protocol-level error that names the language and enumerates
the supported set, and the outcome does not depend on the environment
(no synthesis call is consulted). -/
theorem unsupported_language_rejected (env : Env) (args : CallArgs) (s l : String)
    (hs : validStringParam args.sentence = some s)
    (hl : validStringParam args.language = some l)
    (hns : l ∉ supportedLanguages) :
    handleCallTool env "synthesize_speech" args =
      Except.error (unsupportedLanguageMsg l)
    ∧ unsupportedLanguageMsg l =
        "Unsupported language: " ++ l ++ ". Supported languages: " ++
          "en-US, fi-FI, es-ES, de-DE, fr-FR, sv-SE"
    ∧ (∀ env2 : Env, handleCallTool env2 "synthesize_speech" args =
        Except.error (unsupportedLanguageMsg l)) := by
  refine ⟨handleCallTool_unsupported env args s l hs hl hns, rfl,
    fun env2 => handleCallTool_unsupported env2 args s l hs hl hns⟩

/-- C8 witness: the unsupported code `xx-XX` at concrete arguments. -/
theorem unsupported_language_rejected_witness :
    handleCallTool zeroEnv "synthesize_speech" unsupportedArgs =
      Except.error (unsupportedLanguageMsg "xx-XX") :=
  (unsupported_language_rejected zeroEnv unsupportedArgs "Test sentence" "xx-XX"
    rfl rfl (by decide)).1

/-- C10: a sentence argument that is absent, the empty string, any
number, any boolean, or null is rejected with the very same
invalid-or-missing-sentence protocol error as a missing sentence. -/
theorem falsy_sentence_rejected (env : Env) (args : CallArgs)
    (h : args.sentence = none ∨ args.sentence = some (JSValue.str "") ∨
        (∃ n, args.sentence = some (JSValue.num n)) ∨
        (∃ b, args.sentence = some (JSValue.bool b)) ∨
        args.sentence = some JSValue.null) :
    handleCallTool env "synthesize_speech" args = Except.error invalidSentenceMsg
    ∧ handleCallTool env "synthesize_speech"
        { sentence := none, language := args.language, voice := args.voice } =
      Except.error invalidSentenceMsg := by
  have hv : validStringParam args.sentence = none := by
    rcases h with h | h | ⟨n, h⟩ | ⟨b, h⟩ | h <;> rw [h] <;> rfl
  exact ⟨handleCallTool_invalidSentence env args hv,
    handleCallTool_invalidSentence env _ rfl⟩

/-- C10 witness: the empty-string sentence at concrete arguments. -/
theorem falsy_sentence_rejected_witness :
    handleCallTool zeroEnv "synthesize_speech" emptySentenceArgs =
      Except.error invalidSentenceMsg :=
  (falsy_sentence_rejected zeroEnv emptySentenceArgs (Or.inr (Or.inl rfl))).1

set_option maxRecDepth 100000 in
/-- C3 counterexample: a 1001-character sentence — strictly over the
advertised 1000-character bound — is NOT rejected by the dispatcher: the
call proceeds past validation and completes as a normal response. -/
theorem overlong_sentence_not_rejected :
    longSentence.length = 1001
    ∧ (handleCallTool zeroEnv "synthesize_speech" longArgs).isOk = true := by
  constructor
  · simp [longSentence, String.length]
  · rfl

/-- C3 amended: the dispatcher rejects an empty sentence, but only via
the generic invalid-or-missing-sentence error, and it enforces no upper
length bound at all: any non-empty sentence of any length that passes
the string check proceeds to synthesis. -/
theorem sentence_bounds_amended :
    (∀ (env : Env) (args : CallArgs), args.sentence = some (JSValue.str "") →
      handleCallTool env "synthesize_speech" args = Except.error invalidSentenceMsg)
    ∧ (∀ (env : Env) (args : CallArgs) (s l : String),
        validStringParam args.sentence = some s →
        validStringParam args.language = some l → l ∈ supportedLanguages →
        handleCallTool env "synthesize_speech" args =
          match synthesizeSpeech env s l args.voice with
          | Except.ok result => Except.ok (ToolResponse.content (successText result))
          | Except.error e => Except.ok (ToolResponse.content (failureText e))) := by
  constructor
  · intro env args h
    exact handleCallTool_invalidSentence env args (by rw [h]; rfl)
  · intro env args s l hs hl hsup
    exact handleCallTool_valid env args s l hs hl hsup

/-- C3 amended witness: the empty-sentence conjunct at concrete
arguments. -/
theorem sentence_bounds_amended_witness :
    handleCallTool zeroEnv "synthesize_speech" emptySentenceArgs =
      Except.error invalidSentenceMsg :=
  sentence_bounds_amended.1 zeroEnv emptySentenceArgs rfl

/-- C6: with a falsy resolved speech key, `synthesizeSpeech` rejects
with the configuration message whatever the external capability would
have done (no synthesis call is consulted), and the dispatcher delivers
this as a normal `Except.ok` response embedding the credentials problem,
not as a protocol-level error. -/
theorem missing_credentials_failure (env : Env) (args : CallArgs) (s l : String)
    (hkey : strTruthy env.azureSpeechKey = false)
    (hs : validStringParam args.sentence = some s)
    (hl : validStringParam args.language = some l)
    (hsup : l ∈ supportedLanguages) :
    synthesizeSpeech env s l args.voice = Except.error credentialsErrorMsg
    ∧ (∀ ext : ExternalOutcome,
        synthesizeSpeech { env with external := ext } s l args.voice =
          Except.error credentialsErrorMsg)
    ∧ handleCallTool env "synthesize_speech" args =
        Except.ok (ToolResponse.content (failureText credentialsErrorMsg)) := by
  refine ⟨synthesizeSpeech_noKey env s l args.voice hkey,
    fun ext => synthesizeSpeech_noKey _ s l args.voice hkey, ?_⟩
  rw [handleCallTool_valid env args s l hs hl hsup,
    synthesizeSpeech_noKey env s l args.voice hkey]

/-- C6 witness: the credentials-absent environment with the sample
arguments. -/
theorem missing_credentials_failure_witness :
    synthesizeSpeech noKeyEnv "Hello world" "en-US" none =
      Except.error credentialsErrorMsg
    ∧ handleCallTool noKeyEnv "synthesize_speech" sampleArgs =
        Except.ok (ToolResponse.content (failureText credentialsErrorMsg)) :=
  ⟨(missing_credentials_failure noKeyEnv sampleArgs "Hello world" "en-US"
      rfl rfl rfl (by decide)).1,
   (missing_credentials_failure noKeyEnv sampleArgs "Hello world" "en-US"
      rfl rfl rfl (by decide)).2.2⟩

/-- C7: an external call that reports success with an absent or
zero-byte audio payload makes `synthesizeSpeech` fail with the
no-audio-data message; the file system is never consulted (the outcome
is the same whatever `writeFileSync` would have done) and the dispatcher
treats it exactly like any other synthesis failure. -/
theorem empty_audio_failure (env : Env) (s l : String) (v : Option String)
    (res : SpeechResult)
    (hkey : strTruthy env.azureSpeechKey = true)
    (hreg : env.azureSpeechRegion ≠ "")
    (hext : env.external = ExternalOutcome.completed res)
    (hed : strTruthy res.errorDetails = false)
    (hempty : res.audioData = none ∨ res.audioData = some 0) :
    synthesizeSpeech env s l v = Except.error emptyAudioMsg
    ∧ (∀ w : Option String,
        synthesizeSpeech { env with fileWriteError := w } s l v =
          Except.error emptyAudioMsg)
    ∧ (∀ args : CallArgs, validStringParam args.sentence = some s →
        validStringParam args.language = some l → l ∈ supportedLanguages →
        args.voice = v →
        handleCallTool env "synthesize_speech" args =
          Except.ok (ToolResponse.content (failureText emptyAudioMsg))) := by
  have hz : res.audioData.getD 0 = 0 := by
    rcases hempty with h | h <;> rw [h] <;> rfl
  have h1 : ∀ e : Env, e.azureSpeechKey = env.azureSpeechKey →
      e.azureSpeechRegion = env.azureSpeechRegion →
      e.external = ExternalOutcome.completed res →
      synthesizeSpeech e s l v = Except.error emptyAudioMsg := by
    intro e hk hr he
    simp [synthesizeSpeech, hk, hr, hkey, hreg, he, hed, hz]
  refine ⟨h1 env rfl rfl hext, fun w => h1 _ rfl rfl hext, ?_⟩
  intro args hs hl hsup hv
  rw [handleCallTool_valid env args s l hs hl hsup, hv, h1 env rfl rfl hext]

/-- C7 witness: the zero-byte-audio environment at concrete inputs. -/
theorem empty_audio_failure_witness :
    synthesizeSpeech emptyAudioEnv "Hello world" "en-US" none =
      Except.error emptyAudioMsg :=
  (empty_audio_failure emptyAudioEnv "Hello world" "en-US" none
    { errorDetails := none, audioData := some 0, audioDuration := 0 }
    rfl (by decide) rfl rfl (Or.inr rfl)).1

/-- The characters-per-second guard is non-negative for any sentence
length and elapsed time. -/
theorem cps_nonneg (len d : Nat) :
    0 ≤ (if d > 0 then (len : ℚ) / ((d : ℚ) / 1000) else 0) := by
  split_ifs with h
  · exact div_nonneg (Nat.cast_nonneg _) (by positivity)
  · exact le_refl 0

/-- The words-per-minute guard is non-negative for any word count and
audio duration. -/
theorem wpm_nonneg (wc : Nat) (q : ℚ) :
    0 ≤ (if q > 0 then ((wc : ℚ) / q) * 60 else 0) := by
  split_ifs with h
  · exact mul_nonneg (div_nonneg (Nat.cast_nonneg _) (le_of_lt h)) (by norm_num)
  · exact le_refl 0

/-- C4: in every successful synthesis outcome the two rate metrics are
non-negative elements of `ℚ` (hence finite, never `Infinity`/`NaN`), and
the division-by-zero guards yield exactly `0`: zero elapsed time gives
zero characters-per-second and zero reported audio duration gives zero
words-per-minute. -/
theorem metrics_guarded (env : Env) (s l : String) (v : Option String)
    (r : SynthesisResult)
    (h : synthesizeSpeech env s l v = Except.ok r) :
    0 ≤ r.metrics.charactersPerSecond
    ∧ 0 ≤ r.metrics.wordsPerMinute
    ∧ (r.metrics.synthesisTime = 0 → r.metrics.charactersPerSecond = 0)
    ∧ (r.metrics.audioDuration = 0 → r.metrics.wordsPerMinute = 0) := by
  simp only [synthesizeSpeech] at h
  split at h
  · exact absurd h (by simp)
  · split at h
    · exact absurd h (by simp)
    · split at h
      · exact absurd h (by simp)
      · split at h
        · exact absurd h (by simp)
        · split at h
          · exact absurd h (by simp)
          · rw [Except.ok.injEq] at h
            subst h
            refine ⟨?_, ?_, ?_, ?_⟩
            · exact cps_nonneg s.length env.elapsedMs
            · exact wpm_nonneg (jsWordCount s) _
            · dsimp only
              intro h0
              rw [h0]
              simp
            · dsimp only
              intro h0
              rw [h0]
              simp

/-- C4 witness: the sample run with zero elapsed time and zero reported
audio duration has metrics that are non-negative and exactly zero. -/
theorem metrics_guarded_witness :
    0 ≤ sampleResult.metrics.charactersPerSecond
    ∧ 0 ≤ sampleResult.metrics.wordsPerMinute
    ∧ sampleResult.metrics.charactersPerSecond = 0
    ∧ sampleResult.metrics.wordsPerMinute = 0 :=
  ⟨(metrics_guarded zeroEnv "Hello world" "en-US" none sampleResult sampleRun_ok).1,
   (metrics_guarded zeroEnv "Hello world" "en-US" none sampleResult sampleRun_ok).2.1,
   (metrics_guarded zeroEnv "Hello world" "en-US" none sampleResult sampleRun_ok).2.2.1 rfl,
   (metrics_guarded zeroEnv "Hello world" "en-US" none sampleResult sampleRun_ok).2.2.2 rfl⟩

/-- C5: every successful synthesis names its output file
`mcp-tts-<language with its hyphen replaced by an underscore>-<resolved
voice with every non-alphanumeric character replaced by a hyphen>-<ISO
timestamp with every colon and period replaced by a hyphen>.wav`, in
that exact order, with the voice being the catalog-resolved voice. -/
theorem filename_convention (env : Env) (s l : String) (v : Option String)
    (r : SynthesisResult) (hL : l ∈ supportedLanguages)
    (h : synthesizeSpeech env s l v = Except.ok r) :
    r.voice = getVoiceForLanguage l v
    ∧ r.filename =
        "mcp-tts-" ++ specUnderscoreLang l ++ "-" ++ jsReplaceNonAlnum r.voice ++
          "-" ++ jsReplaceColonsDots env.timestamp ++ ".wav" := by
  have h6 : l = "en-US" ∨ l = "fi-FI" ∨ l = "es-ES" ∨ l = "de-DE" ∨
      l = "fr-FR" ∨ l = "sv-SE" := by
    simpa [supportedLanguages] using hL
  have hrepl : jsReplaceFirstHyphen l = specUnderscoreLang l := by
    rcases h6 with rfl | rfl | rfl | rfl | rfl | rfl <;> rfl
  simp only [synthesizeSpeech] at h
  split at h
  · exact absurd h (by simp)
  · split at h
    · exact absurd h (by simp)
    · split at h
      · exact absurd h (by simp)
      · split at h
        · exact absurd h (by simp)
        · split at h
          · exact absurd h (by simp)
          · rw [Except.ok.injEq] at h
            subst h
            exact ⟨rfl, by dsimp only; rw [hrepl]⟩

/-- C5 witness: the sample run's filename at concrete inputs. -/
theorem filename_convention_witness :
    sampleResult.voice = getVoiceForLanguage "en-US" none
    ∧ sampleResult.filename =
        "mcp-tts-" ++ specUnderscoreLang "en-US" ++ "-" ++
          jsReplaceNonAlnum sampleResult.voice ++ "-" ++
          jsReplaceColonsDots zeroEnv.timestamp ++ ".wav" :=
  filename_convention zeroEnv "Hello world" "en-US" none sampleResult
    (by decide) sampleRun_ok

/-- C9: `tools/list` always returns the one speech-synthesis tool; its
schema requires `sentence` and `language`, bounds `sentence` to 1-1000
characters, restricts `language` to exactly the dispatcher's six
supported codes (kept in lockstep with the voice catalog's keys), and
leaves `voice` optional with no enumeration or length bound. -/
theorem tools_list_contract :
    listToolsResult = [synthesizeSpeechTool]
    ∧ synthesizeSpeechTool.name = "synthesize_speech"
    ∧ synthesizeSpeechTool.inputSchema.required = ["sentence", "language"]
    ∧ propSchema synthesizeSpeechTool "sentence" =
        some { type := "string", minLength := some 1, maxLength := some 1000,
               enum := none }
    ∧ propSchema synthesizeSpeechTool "language" =
        some { type := "string", minLength := none, maxLength := none,
               enum := some supportedLanguages }
    ∧ propSchema synthesizeSpeechTool "voice" =
        some { type := "string", minLength := none, maxLength := none, enum := none }
    ∧ "voice" ∉ synthesizeSpeechTool.inputSchema.required
    ∧ VOICE_CONFIG.map Prod.fst = supportedLanguages
    ∧ supportedLanguages.length = 6 := by
  refine ⟨rfl, rfl, rfl, rfl, rfl, rfl, by decide, rfl, rfl⟩

end MsTts
